import Mathlib

/-!
Shallow embedding of the FTOLED driver (FTOLED.h) for the Freetronics
128x128 OLED display.

The device is driven over SPI: every transfer is a single byte, sent either
with the D/C line low (a command byte) or high (a data byte).  We model the
observable behaviour of each driver routine as the finite trace of bytes it
pushes onto the bus.  C `byte` values are modelled as `Nat` with an explicit
`% 256` wherever the C code narrows a wider value to `byte`.  Chip-select
and pin-level signalling are external I/O and are not part of the trace.
-/

/-- One byte on the SPI bus, tagged with the D/C line state: `cmd` is sent
with D/C low, `dat` with D/C high. -/
inductive Wire where
  | cmd (b : Nat)
  | dat (b : Nat)
deriving DecidableEq, Repr

/-- Embeds `OLED::writeCommand(byte)`: one byte with D/C low.  The argument
is narrowed to `byte` at the call boundary. -/
def writeCommand (command : Nat) : List Wire := [.cmd (command % 256)]

/-- Embeds `OLED::writeData(byte)`: one byte with D/C high, the argument
narrowed to `byte` at the call boundary. -/
def writeData (data : Nat) : List Wire := [.dat (data % 256)]

/-- Embeds `OLED::writeCommand(byte, byte)`: the command byte followed by
one data byte. -/
def writeCommandData (command data : Nat) : List Wire :=
  writeCommand command ++ writeData data

/-- Embeds `struct Colour`: bitfields `red : 5`, `green : 6`, `blue : 5`. -/
structure Colour where
  red : Nat
  green : Nat
  blue : Nat
deriving DecidableEq, Repr

/-- Storing into the `Colour` bitfields keeps only the low 5/6/5 bits of
each channel (C bitfield assignment truncates). -/
def mkColour (r g b : Nat) : Colour :=
  ⟨r % 32, g % 64, b % 32⟩

/-- The channel-range invariant stated alongside `MAX_RED`, `MAX_GREEN`,
`MAX_BLUE` in the header. -/
def ColourInRange (c : Colour) : Prop :=
  c.red ≤ 31 ∧ c.green ≤ 63 ∧ c.blue ≤ 31

instance (c : Colour) : Decidable (ColourInRange c) := by
  unfold ColourInRange; infer_instance

def MAX_RED : Nat := 31
def MAX_GREEN : Nat := 63
def MAX_BLUE : Nat := 31

/-- Embeds `OLED::writeData(Colour)`: two data bytes,
`(green>>3)|(red<<3)` then `(green<<5)|blue`, each narrowed to `byte` at
the inner `writeData(byte)` call. -/
def writeDataColour (colour : Colour) : List Wire :=
  writeData ((colour.green >>> 3) ||| (colour.red <<< 3)) ++
  writeData ((colour.green <<< 5) ||| colour.blue)

/-- The inverse of the 5-6-5 wire layout: red is bits 15-11, green bits
10-5, blue bits 4-0 of the 16-bit word formed from the two bytes, high
byte first. -/
def unpack565 (b1 b2 : Nat) : Nat × Nat × Nat :=
  let w := b1 * 256 + b2
  (w / 2048, w / 32 % 64, w % 32)

/- Arithmetic readings of the bit operations used by `writeData(Colour)`. -/

theorem highByte_eq (r g : Nat) (hg : g ≤ 63) :
    (g >>> 3) ||| (r <<< 3) = 8 * r + g / 8 := by
  rw [Nat.shiftRight_eq_div_pow, Nat.shiftLeft_eq]
  have h8 : g / 2 ^ 3 < 2 ^ 3 := by
    have : g / 2 ^ 3 ≤ 63 / 2 ^ 3 := Nat.div_le_div_right hg
    omega
  rw [Nat.or_comm, Nat.mul_comm, ← Nat.mul_add_lt_is_or h8]
  norm_num

theorem lowByte_eq (g b : Nat) (hb : b ≤ 31) :
    (g <<< 5) ||| b = 32 * g + b := by
  rw [Nat.shiftLeft_eq]
  have h32 : b < 2 ^ 5 := by omega
  rw [Nat.mul_comm, ← Nat.mul_add_lt_is_or h32]

/-- C1: `writeData(Colour)` emits exactly two data bytes, high byte first:
byte1 = `(green>>3)|(red<<3)`, byte2 = `(green<<5)|blue` (narrowed to a
byte), and together they are the 16-bit 5-6-5 packing with red in bits
15-11, green in bits 10-5 and blue in bits 4-0. -/
theorem writeData_colour_emits_565 (c : Colour) (h : ColourInRange c) :
    writeDataColour c =
      [.dat ((c.green >>> 3) ||| (c.red <<< 3)),
       .dat (((c.green <<< 5) ||| c.blue) % 256)] ∧
    ((c.green >>> 3) ||| (c.red <<< 3)) * 256 + ((c.green <<< 5) ||| c.blue) % 256
      = c.red * 2 ^ 11 + c.green * 2 ^ 5 + c.blue := by
  obtain ⟨hr, hg, hb⟩ := h
  have h1 := highByte_eq c.red c.green hg
  have h2 := lowByte_eq c.green c.blue hb
  have hm : ((c.green >>> 3) ||| (c.red <<< 3)) % 256
      = (c.green >>> 3) ||| (c.red <<< 3) :=
    Nat.mod_eq_of_lt (by rw [h1]; omega)
  constructor
  · simp [writeDataColour, writeData, hm]
  · rw [h1, h2]
    omega

/-- Witness for C1 at the colour (red 1, green 2, blue 3). -/
theorem writeData_colour_emits_565_witness :
    writeDataColour ⟨1, 2, 3⟩ = [.dat 8, .dat 67] ∧
      8 * 256 + 67 = 1 * 2 ^ 11 + 2 * 2 ^ 5 + 3 := by
  have h := writeData_colour_emits_565 ⟨1, 2, 3⟩ (by decide)
  exact ⟨h.1.trans (by decide), by decide⟩

/-- C2: packing a representable colour through the two wire bytes of
`writeData(Colour)` and unpacking the 5-6-5 word recovers exactly the
three channel values. -/
theorem colour565_roundtrip (r g b : Nat)
    (hr : r ≤ 31) (hg : g ≤ 63) (hb : b ≤ 31) :
    ∀ b1 b2, writeDataColour ⟨r, g, b⟩ = [.dat b1, .dat b2] →
      unpack565 b1 b2 = (r, g, b) := by
  intro b1 b2 hw
  have h := writeData_colour_emits_565 ⟨r, g, b⟩ ⟨hr, hg, hb⟩
  rw [h.1] at hw
  have hb1 : b1 = (g >>> 3) ||| (r <<< 3) := by
    have := List.cons.inj hw
    exact (Wire.dat.inj this.1).symm
  have hb2 : b2 = ((g <<< 5) ||| b) % 256 := by
    have := List.cons.inj hw
    have := List.cons.inj this.2
    exact (Wire.dat.inj this.1).symm
  have hpack := h.2
  simp only [unpack565]
  rw [hb1, hb2]
  have h1 := highByte_eq r g hg
  have h2 := lowByte_eq g b hb
  rw [h1] at hpack ⊢
  rw [h2] at hpack ⊢
  have : (8 * r + g / 8) * 256 + (32 * g + b) % 256 = r * 2 ^ 11 + g * 2 ^ 5 + b := hpack
  simp only [Prod.mk.injEq]
  refine ⟨by omega, by omega, by omega⟩

/-- Witness for C2 at (red 1, green 2, blue 3): the wire bytes are 8 and 67
and unpack back to (1, 2, 3). -/
theorem colour565_roundtrip_witness :
    unpack565 8 67 = (1, 2, 3) := by
  exact colour565_roundtrip 1 2 3 (by decide) (by decide) (by decide) 8 67 (by decide)

/-- C5: any value stored into the `Colour` bitfields satisfies
red ≤ 31 (`MAX_RED`), green ≤ 63 (`MAX_GREEN`), blue ≤ 31 (`MAX_BLUE`):
bitfield assignment truncates each channel to its 5/6/5 bit width, so the
invariant holds for every constructed `Colour` whatever the caller
supplies. -/
theorem mkColour_in_range (r g b : Nat) : ColourInRange (mkColour r g b) := by
  unfold ColourInRange mkColour
  refine ⟨?_, ?_, ?_⟩ <;> simp <;> omega

/-! Device register commands (SSD1351-style controller). -/

def ROWS : Nat := 128
def COLUMNS : Nat := 128
def ROW_MASK : Nat := ROWS - 1
def COLUMN_MASK : Nat := COLUMNS - 1

/-- Embeds `OLED::setColumn(byte,byte)`: opcode 0x15 then the start and end
column data bytes. -/
def setColumn (start end_ : Nat) : List Wire :=
  writeCommand 0x15 ++ writeData start ++ writeData end_

/-- Embeds `OLED::setRow(byte,byte)`: opcode 0x75 then the start and end
row data bytes. -/
def setRow (start end_ : Nat) : List Wire :=
  writeCommand 0x75 ++ writeData start ++ writeData end_

/-- Embeds `OLED::setWriteRam()`: the single opcode 0x5C, no data. -/
def setWriteRam : List Wire :=
  writeCommand 0x5C

/-- Embeds `OLED::setDisplayMode(mode)`: the single command byte
`0xA4 + mode`.  The chip-select assertion around it is pin-level I/O, not
part of the byte trace. -/
def setDisplayMode (mode : Nat) : List Wire :=
  writeCommand (0xA4 + mode)

/-- Embeds `enum OLED_Command_Lock`. -/
def DISPLAY_COMMAND_UNLOCK : Nat := 0x12
def DISPLAY_COMMAND_LOCK : Nat := 0x16
def DISPLAY_COMMAND_LOCK_SPECIAL : Nat := 0xB0
def DISPLAY_COMMAND_ALLOW_SPECIAL : Nat := 0xB1

/-- Embeds `OLED::setCommandLock(lock_command)`: opcode 0xFD then the lock
byte. -/
def setCommandLock (lock_command : Nat) : List Wire :=
  writeCommandData 0xFD lock_command

/-- Embeds `OLED::setMasterContrast(contrast)`: opcode 0xC7, data
`contrast & 0x0F`. -/
def setMasterContrast (contrast : Nat) : List Wire :=
  writeCommandData 0xC7 (contrast &&& 0x0F)

/-- Embeds `OLED::setPrechargeVoltage(level)`: opcode 0xBB, data
`level & 0x1F`. -/
def setPrechargeVoltage (level : Nat) : List Wire :=
  writeCommandData 0xBB (level &&& 0x1F)

/-- Embeds `OLED::setDisplayOffset(row)`: opcode 0xA2, data
`row & ROW_MASK`. -/
def setDisplayOffset (row : Nat) : List Wire :=
  writeCommandData 0xA2 (row &&& ROW_MASK)

/-- Embeds `OLED::setStartRow(row)`: opcode 0xA1, data `row & ROW_MASK`. -/
def setStartRow (row : Nat) : List Wire :=
  writeCommandData 0xA1 (row &&& ROW_MASK)

/-- Embeds `OLED::setSecondPrechargePeriod(clocks)`: the input is masked to
its low nibble and the C truth test `clocks ? clocks : 8` substitutes the
default 8 for a zero mask. -/
def setSecondPrechargePeriod (clocks : Nat) : List Wire :=
  let clocks' := clocks &&& 0x0F
  writeCommandData 0xB6 (if clocks' ≠ 0 then clocks' else 8)

/-- Embeds `OLED::setResetPrechargePeriods(resetLength, precharge)`.  The C
code recomputes `resetLength = (resetLength & ~1)/2 - 1` in `int` and
narrows the result back to the `byte` parameter (wrapping mod 256), then
writes opcode 0xB1 with data `(resetLength >> 8) | (precharge & 0x0F)`. -/
def setResetPrechargePeriods (resetLength precharge : Nat) : List Wire :=
  let v : Int := ((resetLength &&& 0xFE : Nat) : Int) / 2 - 1
  let resetLength' : Nat := (v % 256).toNat
  writeCommandData 0xB1 ((resetLength' >>> 8) ||| (precharge &&& 0x0F))

/-- Embeds the `REMAP_*` flag constants for command 0xA0. -/
def REMAP_HORIZONTAL_INCREMENT : Nat := 0
def REMAP_VERTICAL_INCREMENT : Nat := 1 <<< 0
def REMAP_COLUMNS_LEFT_TO_RIGHT : Nat := 0
def REMAP_COLUMNS_RIGHT_TO_LEFT : Nat := 1 <<< 1
def REMAP_ORDER_BGR : Nat := 0
def REMAP_ORDER_RGB : Nat := 1 <<< 2
def REMAP_SCAN_UP_TO_DOWN : Nat := 0
def REMAP_SCAN_DOWN_TO_UP : Nat := 1 <<< 4
def REMAP_COM_SPLIT_ODD_EVEN : Nat := 1 <<< 5
def REMAP_COLOR_8BIT : Nat := 0
def REMAP_COLOR_RGB565 : Nat := 1 <<< 6
def REMAP_COLOR_18BIT : Nat := 2 <<< 6

/-- Embeds `OLED::setIncrementDirection(direction)`.  The member field
`remap_flags` is passed and returned explicitly.  C clears the increment
bit with `& ~(REMAP_HORIZONTAL_INCREMENT|REMAP_VERTICAL_INCREMENT)`; on the
byte-sized field that complement is `0xFF ^^^ mask`.  Returns the new
`remap_flags` value and the emitted bytes (opcode 0xA0 plus the flag
byte). -/
def setIncrementDirection (remap_flags direction : Nat) : Nat × List Wire :=
  let remap := remap_flags &&&
    (0xFF ^^^ (REMAP_HORIZONTAL_INCREMENT ||| REMAP_VERTICAL_INCREMENT))
  let remap2 := remap |||
    (direction &&& (REMAP_VERTICAL_INCREMENT ||| REMAP_HORIZONTAL_INCREMENT))
  (remap2, writeCommandData 0xA0 remap2)

/-- C6: the device opcodes are wire-exact: `setColumn` = 0x15 with start
then end, `setRow` = 0x75 with start then end, `setWriteRam` = 0x5C alone,
`setDisplayMode(mode)` = the single byte `0xA4+mode`, and
`setCommandLock` = 0xFD followed by the lock byte. -/
theorem command_opcodes_exact (start end_ mode lock : Nat)
    (hs : start < 256) (he : end_ < 256) (hm : mode ≤ 3) (hl : lock < 256) :
    setColumn start end_ = [.cmd 0x15, .dat start, .dat end_] ∧
    setRow start end_ = [.cmd 0x75, .dat start, .dat end_] ∧
    setWriteRam = [.cmd 0x5C] ∧
    setDisplayMode mode = [.cmd (0xA4 + mode)] ∧
    setCommandLock lock = [.cmd 0xFD, .dat lock] := by
  have hmode : (0xA4 + mode) % 256 = 0xA4 + mode := Nat.mod_eq_of_lt (by omega)
  refine ⟨?_, ?_, by decide, ?_, ?_⟩
  · simp [setColumn, writeCommand, writeData, Nat.mod_eq_of_lt hs,
      Nat.mod_eq_of_lt he]
  · simp [setRow, writeCommand, writeData, Nat.mod_eq_of_lt hs,
      Nat.mod_eq_of_lt he]
  · simp [setDisplayMode, writeCommand, hmode]
  · simp [setCommandLock, writeCommandData, writeCommand, writeData,
      Nat.mod_eq_of_lt hl]

/-- Witness for C6 at start 3, end 7, mode 2 (DISPLAY_NORMAL), lock byte
0x12 (DISPLAY_COMMAND_UNLOCK). -/
theorem command_opcodes_exact_witness :
    setColumn 3 7 = [.cmd 0x15, .dat 3, .dat 7] ∧
    setRow 3 7 = [.cmd 0x75, .dat 3, .dat 7] ∧
    setWriteRam = [.cmd 0x5C] ∧
    setDisplayMode 2 = [.cmd 0xA6] ∧
    setCommandLock 0x12 = [.cmd 0xFD, .dat 0x12] := by
  have h := command_opcodes_exact 3 7 2 0x12 (by decide) (by decide)
    (by decide) (by decide)
  exact ⟨h.1, h.2.1, h.2.2.1, h.2.2.2.1.trans (by decide), h.2.2.2.2⟩

/-- C8: each of these register writes masks its input before transmission,
so the transmitted data byte never exceeds the register's valid range:
master contrast ≤ 0x0F, precharge voltage ≤ 0x1F, display offset and start
row ≤ 127. -/
theorem masked_register_writes_bounded (contrast level row1 row2 : Nat) :
    (setMasterContrast contrast = [.cmd 0xC7, .dat (contrast &&& 0x0F)] ∧
      contrast &&& 0x0F ≤ 0x0F) ∧
    (setPrechargeVoltage level = [.cmd 0xBB, .dat (level &&& 0x1F)] ∧
      level &&& 0x1F ≤ 0x1F) ∧
    (setDisplayOffset row1 = [.cmd 0xA2, .dat (row1 &&& 127)] ∧
      row1 &&& 127 ≤ 127) ∧
    (setStartRow row2 = [.cmd 0xA1, .dat (row2 &&& 127)] ∧
      row2 &&& 127 ≤ 127) := by
  have h1 : contrast &&& 0x0F ≤ 0x0F := Nat.and_le_right
  have h2 : level &&& 0x1F ≤ 0x1F := Nat.and_le_right
  have h3 : row1 &&& 127 ≤ 127 := Nat.and_le_right
  have h4 : row2 &&& 127 ≤ 127 := Nat.and_le_right
  refine ⟨⟨?_, h1⟩, ⟨?_, h2⟩, ⟨?_, h3⟩, ⟨?_, h4⟩⟩
  · simp [setMasterContrast, writeCommandData, writeCommand, writeData,
      Nat.mod_eq_of_lt (show contrast &&& 0x0F < 256 by omega)]
  · simp [setPrechargeVoltage, writeCommandData, writeCommand, writeData,
      Nat.mod_eq_of_lt (show level &&& 0x1F < 256 by omega)]
  · simp [setDisplayOffset, ROW_MASK, ROWS, writeCommandData, writeCommand,
      writeData, Nat.mod_eq_of_lt (show row1 &&& 127 < 256 by omega)]
  · simp [setStartRow, ROW_MASK, ROWS, writeCommandData, writeCommand,
      writeData, Nat.mod_eq_of_lt (show row2 &&& 127 < 256 by omega)]

/-- C10: `setSecondPrechargePeriod` emits opcode 0xB6 with a data byte in
[1,15]: the input is masked to its low nibble and a zero mask is replaced
by the default 8, so a zero data byte is never transmitted. -/
theorem setSecondPrechargePeriod_in_range (clocks : Nat) :
    ∃ d, setSecondPrechargePeriod clocks = [.cmd 0xB6, .dat d] ∧
      1 ≤ d ∧ d ≤ 15 := by
  have hle : clocks &&& 0x0F ≤ 0x0F := Nat.and_le_right
  by_cases h : clocks &&& 0x0F = 0
  · refine ⟨8, ?_, by omega, by omega⟩
    simp [setSecondPrechargePeriod, writeCommandData, writeCommand,
      writeData, h]
  · refine ⟨clocks &&& 0x0F, ?_, by omega, by omega⟩
    simp [setSecondPrechargePeriod, writeCommandData, writeCommand,
      writeData, h, Nat.mod_eq_of_lt (show clocks &&& 0x0F < 256 by omega)]

/-- C7 evaluated at the failing input resetLength 5 (odd, in [5,31]),
precharge 3: the transmitted data byte is 3, whose high nibble (3 / 16) is
0 — the computed reset-length register value is shifted right by 8 bits,
which discards it, instead of being placed in the high nibble. -/
theorem setResetPrechargePeriods_eval :
    setResetPrechargePeriods 5 3 = [.cmd 0xB1, .dat 3] ∧ (3 : Nat) / 16 = 0 := by
  constructor
  · rfl
  · rfl

/- Helper facts for the remap-flag update. -/

set_option maxRecDepth 4096 in
theorem and254_drops_bit0 : ∀ r : Fin 256, r.val &&& 254 = r.val - r.val % 2 := by
  decide

theorem even_or_bit (x b : Nat) (hx : x % 2 = 0) (hb : b < 2) :
    x ||| b = x + b := by
  have hsplit : x = 2 ^ 1 * (x / 2) := by omega
  rw [hsplit]
  exact (Nat.mul_add_lt_is_or (by omega) (x / 2)).symm

/-- C9: `setIncrementDirection` writes command 0xA0 with the updated flag
byte; the new `remap_flags` takes its increment-direction bit (bit 0, its
parity) from the direction argument and keeps every other bit (the
quotient by 2: column order, colour order, scan direction, colour depth)
from the previous `remap_flags`. -/
theorem setIncrementDirection_updates_bit0 (remap_flags direction : Nat)
    (hr : remap_flags < 256) :
    (setIncrementDirection remap_flags direction).2 =
      [.cmd 0xA0, .dat (setIncrementDirection remap_flags direction).1] ∧
    (setIncrementDirection remap_flags direction).1 % 2 = direction % 2 ∧
    (setIncrementDirection remap_flags direction).1 / 2 = remap_flags / 2 := by
  have hc1 : (0xFF ^^^ (REMAP_HORIZONTAL_INCREMENT ||| REMAP_VERTICAL_INCREMENT))
      = 254 := by decide
  have hc2 : (REMAP_VERTICAL_INCREMENT ||| REMAP_HORIZONTAL_INCREMENT) = 1 := by
    decide
  have hval : (setIncrementDirection remap_flags direction).1
      = (remap_flags &&& 254) ||| (direction &&& 1) := by
    simp [setIncrementDirection, hc1, hc2]
  have h254 : remap_flags &&& 254 = remap_flags - remap_flags % 2 :=
    and254_drops_bit0 ⟨remap_flags, hr⟩
  have h1 : direction &&& 1 = direction % 2 := Nat.and_one_is_mod direction
  have hval2 : (setIncrementDirection remap_flags direction).1
      = (remap_flags - remap_flags % 2) + direction % 2 := by
    rw [hval, h254, h1]
    exact even_or_bit _ _ (by omega) (by omega)
  have hlt : (setIncrementDirection remap_flags direction).1 < 256 := by omega
  refine ⟨?_, by omega, by omega⟩
  have htrace : (setIncrementDirection remap_flags direction).2 =
      writeCommandData 0xA0 (setIncrementDirection remap_flags direction).1 := by
    simp [setIncrementDirection]
  rw [htrace]
  simp [writeCommandData, writeCommand, writeData, Nat.mod_eq_of_lt hlt]

/-- Witness for C9 at remap_flags 0x36 and direction 1: the new flag byte
is 0x37, parity 1, upper bits 0x36 / 2 = 27. -/
theorem setIncrementDirection_updates_bit0_witness :
    (setIncrementDirection 54 1).2 = [.cmd 0xA0, .dat 55] ∧
    (setIncrementDirection 54 1).1 % 2 = 1 % 2 ∧
    (setIncrementDirection 54 1).1 / 2 = 54 / 2 := by
  have h := setIncrementDirection_updates_bit0 54 1 (by decide)
  refine ⟨?_, h.2.1, h.2.2⟩
  have : (setIncrementDirection 54 1).1 = 55 := by decide
  rw [h.1, this]

/-! Window addressing.

The body of `setWindow` lives in the repository's implementation file,
which is not under src/; the header carries only its building blocks
`setColumn`, `setRow` and `setWriteRam`, so the routine is modelled from
the spec below. -/

/-- Modelled from the spec: the missing `setWindow` body masks each
coordinate to the valid grid range.  Masking a signed coordinate with
`COLUMN_MASK`/`ROW_MASK` (127) is its value modulo 128. -/
def maskCoord (x : Int) : Nat := (x % 128).toNat

/-- Modelled from the spec: the start of an axis range after masking and
normalization (the smaller of the two masked coordinates). -/
def winStart (a b : Int) : Nat := min (maskCoord a) (maskCoord b)

/-- Modelled from the spec: the end of an axis range after masking and
normalization (the larger of the two masked coordinates). -/
def winEnd (a b : Int) : Nat := max (maskCoord a) (maskCoord b)

/-- Modelled from the spec: the missing `setWindow(x0,y0,x1,y1)` body
normalizes the corners (swap if reversed), masks each coordinate to
[0,127], and issues the column range, the row range, then the
begin-pixel-stream command. -/
def setWindow (x0 y0 x1 y1 : Int) : List Wire :=
  setColumn (winStart x0 x1) (winEnd x0 x1) ++
  setRow (winStart y0 y1) (winEnd y0 y1) ++
  setWriteRam

/-- C3: `setWindow` emits exactly three device commands in order — column
range (0x15 start end), row range (0x75 start end), begin pixel stream
(0x5C) — with every coordinate masked into [0,127] and start ≤ end on each
axis after normalization. -/
theorem setWindow_normalizes (x0 y0 x1 y1 : Int) :
    setWindow x0 y0 x1 y1 =
      [.cmd 0x15, .dat (winStart x0 x1), .dat (winEnd x0 x1),
       .cmd 0x75, .dat (winStart y0 y1), .dat (winEnd y0 y1),
       .cmd 0x5C] ∧
    winStart x0 x1 ≤ winEnd x0 x1 ∧
    winStart y0 y1 ≤ winEnd y0 y1 ∧
    winEnd x0 x1 ≤ 127 ∧
    winEnd y0 y1 ≤ 127 := by
  have hmask : ∀ x : Int, maskCoord x ≤ 127 := by
    intro x
    unfold maskCoord
    omega
  have hx : winEnd x0 x1 ≤ 127 := max_le (hmask x0) (hmask x1)
  have hy : winEnd y0 y1 ≤ 127 := max_le (hmask y0) (hmask y1)
  have hsx : winStart x0 x1 ≤ winEnd x0 x1 := min_le_max
  have hsy : winStart y0 y1 ≤ winEnd y0 y1 := min_le_max
  refine ⟨?_, hsx, hsy, hx, hy⟩
  have m1 : winStart x0 x1 % 256 = winStart x0 x1 := Nat.mod_eq_of_lt (by omega)
  have m2 : winEnd x0 x1 % 256 = winEnd x0 x1 := Nat.mod_eq_of_lt (by omega)
  have m3 : winStart y0 y1 % 256 = winStart y0 y1 := Nat.mod_eq_of_lt (by omega)
  have m4 : winEnd y0 y1 % 256 = winEnd y0 y1 := Nat.mod_eq_of_lt (by omega)
  simp [setWindow, setColumn, setRow, setWriteRam, writeCommand, writeData,
    m1, m2, m3, m4]

/-! Bitmap decoding.

The bodies of the four `displayBMP` overloads and of the shared template
`_displayBMP` live in the repository's implementation file, which is not
under src/; the header carries only their declarations and the
`BMP_Status` result enum, so the decode control flow is modelled from the
spec (§4.3). -/

/-- Embeds `enum BMP_Status`. -/
inductive BMP_Status where
  | BMP_OK
  | BMP_INVALID_FORMAT
  | BMP_UNSUPPORTED_HEADER
  | BMP_TOO_MANY_COLOURS
  | BMP_COMPRESSION_NOT_SUPPORTED
  | BMP_ORIGIN_OUTSIDE_IMAGE
deriving DecidableEq, Repr

/-- Modelled from the spec: the largest palette the decoder accepts.  The
spec fixes no number; 256 is the most an 8-bit-indexed BMP can carry. -/
def MAX_PALETTE_COLOURS : Nat := 256

/-- Modelled from the spec: an abstract byte source already split into the
facts the decode steps of §4.3 inspect — signature/header-length validity,
header-variant support, palette entry count, compression support, the
image's width and height, and its pixel rows as stored (bottom-up). -/
structure BMPSource where
  validSignature : Bool
  supportedHeader : Bool
  paletteCount : Nat
  compressionSupported : Bool
  width : Nat
  height : Nat
  rows : List (List Colour)
deriving DecidableEq, Repr

/-- Modelled from the spec: rows are streamed from last to first (the
container stores rows bottom-up, the device wants top-down), each pixel
forwarded through the 5-6-5 pixel write. -/
def streamRows (rows : List (List Colour)) : List Wire :=
  rows.reverse.flatMap (fun row => row.flatMap writeDataColour)

/-- Modelled from the spec (§8): the placement window lies fully outside
the addressable [0,127]x[0,127] grid. -/
def windowOutsideGrid (from_x from_y to_x to_y : Int) : Bool :=
  decide (to_x < 0 ∨ to_y < 0 ∨ 127 < from_x ∨ 127 < from_y)

/-- Modelled from the spec: the single decode routine behind all four
`displayBMP` overloads.  The §4.3 checks run in order — container
signature, header variant, palette size, compression mode, destination
window — and decoding halts at the first violation with the matching
status and no device writes; only when every check passes is the window
armed and every row streamed. -/
def _displayBMP (source : BMPSource) (from_x from_y to_x to_y : Int) :
    BMP_Status × List Wire :=
  if !source.validSignature then (.BMP_INVALID_FORMAT, [])
  else if !source.supportedHeader then (.BMP_UNSUPPORTED_HEADER, [])
  else if MAX_PALETTE_COLOURS < source.paletteCount then
    (.BMP_TOO_MANY_COLOURS, [])
  else if !source.compressionSupported then
    (.BMP_COMPRESSION_NOT_SUPPORTED, [])
  else if windowOutsideGrid from_x from_y to_x to_y then
    (.BMP_ORIGIN_OUTSIDE_IMAGE, [])
  else
    (.BMP_OK, setWindow from_x from_y to_x to_y ++ streamRows source.rows)

/-- Modelled from the spec: the origin-only overload is sugar over the
bounded form, the destination bounds taken from the image's own width and
height (bottom-left anchored). -/
def displayBMP (source : BMPSource) (x y : Int) : BMP_Status × List Wire :=
  _displayBMP source x y (x + (source.width : Int) - 1)
    (y + (source.height : Int) - 1)

/-- C4: every decode attempt returns exactly one of the six `BMP_Status`
values; each non-OK status is returned exactly when its check is the first
violated one, with no device writes; OK is returned exactly when every
check passes, and then every row is streamed; the origin-only overload is
the bounded overload with bounds taken from the image. -/
theorem displayBMP_status_closed (source : BMPSource) (fx fy tx ty x y : Int) :
    ((_displayBMP source fx fy tx ty).1 = .BMP_OK ∨
     (_displayBMP source fx fy tx ty).1 = .BMP_INVALID_FORMAT ∨
     (_displayBMP source fx fy tx ty).1 = .BMP_UNSUPPORTED_HEADER ∨
     (_displayBMP source fx fy tx ty).1 = .BMP_TOO_MANY_COLOURS ∨
     (_displayBMP source fx fy tx ty).1 = .BMP_COMPRESSION_NOT_SUPPORTED ∨
     (_displayBMP source fx fy tx ty).1 = .BMP_ORIGIN_OUTSIDE_IMAGE) ∧
    ((_displayBMP source fx fy tx ty).1 = .BMP_INVALID_FORMAT ↔
      source.validSignature = false) ∧
    ((_displayBMP source fx fy tx ty).1 = .BMP_UNSUPPORTED_HEADER ↔
      source.validSignature = true ∧ source.supportedHeader = false) ∧
    ((_displayBMP source fx fy tx ty).1 = .BMP_TOO_MANY_COLOURS ↔
      source.validSignature = true ∧ source.supportedHeader = true ∧
      MAX_PALETTE_COLOURS < source.paletteCount) ∧
    ((_displayBMP source fx fy tx ty).1 = .BMP_COMPRESSION_NOT_SUPPORTED ↔
      source.validSignature = true ∧ source.supportedHeader = true ∧
      source.paletteCount ≤ MAX_PALETTE_COLOURS ∧
      source.compressionSupported = false) ∧
    ((_displayBMP source fx fy tx ty).1 = .BMP_ORIGIN_OUTSIDE_IMAGE ↔
      source.validSignature = true ∧ source.supportedHeader = true ∧
      source.paletteCount ≤ MAX_PALETTE_COLOURS ∧
      source.compressionSupported = true ∧
      windowOutsideGrid fx fy tx ty = true) ∧
    ((_displayBMP source fx fy tx ty).1 = .BMP_OK ↔
      source.validSignature = true ∧ source.supportedHeader = true ∧
      source.paletteCount ≤ MAX_PALETTE_COLOURS ∧
      source.compressionSupported = true ∧
      windowOutsideGrid fx fy tx ty = false) ∧
    ((_displayBMP source fx fy tx ty).1 = .BMP_OK →
      (_displayBMP source fx fy tx ty).2 =
        setWindow fx fy tx ty ++ streamRows source.rows) ∧
    ((_displayBMP source fx fy tx ty).1 ≠ .BMP_OK →
      (_displayBMP source fx fy tx ty).2 = []) ∧
    displayBMP source x y =
      _displayBMP source x y (x + (source.width : Int) - 1)
        (y + (source.height : Int) - 1) := by
  obtain ⟨vs, sh, pc, cs, w, h, rows⟩ := source
  cases vs <;> cases sh <;> cases cs <;>
    by_cases hpc : 256 < pc <;>
    cases hw : windowOutsideGrid fx fy tx ty <;>
    simp [_displayBMP, displayBMP, MAX_PALETTE_COLOURS, hpc, hw] <;> omega
